import Mathlib

/-!
Verification of `deluge_client/client.py` (tobbez/deluge-client).

Shallow embedding conventions:
* bytes are `Nat` values (0..255) and byte strings are `List Nat`;
* a blocking `socket.recv` call is one `RecvEvent`: either a nonempty
  chunk of bytes, a zero-byte read (lost connection), or an
  `ssl.SSLError` (read timeout);
* text fields decoded from the wire (the `decode_utf8 = True` mode of
  the client) are Lean `String`s;
* raised Python exceptions are the `Exc` inductive, and fallible
  operations return `Except Exc`;
* the two external codecs (`zlib` compression and `rencode`
  serialization) are black boxes, as in the design document: the frame
  layer below hands over raw payload bytes, and the message layer above
  starts from the already-deserialized value list.
-/

set_option autoImplicit false

/-- Wire message type tag `RPC_RESPONSE = 1` (client.py line 16). -/
def RPC_RESPONSE : Int := 1

/-- Wire message type tag `RPC_ERROR = 2` (client.py line 17). -/
def RPC_ERROR : Int := 2

/-- Wire message type tag `RPC_EVENT = 3` (client.py line 18). -/
def RPC_EVENT : Int := 3

/-- `MESSAGE_HEADER_SIZE = 5` (client.py line 20). -/
def MESSAGE_HEADER_SIZE : Nat := 5

/-- `READ_SIZE = 10` (client.py line 21). -/
def READ_SIZE : Nat := 10

/-- Values produced by the rencode deserializer, as far as the client
inspects them: integers, text, sequences and `None`. -/
inductive RValue where
  | int (n : Int)
  | str (s : String)
  | tuple (xs : List RValue)
  | noneV

/-- The exceptions the client code can raise or observe.
`socketError`, `connectionLost` and `callTimeout` are the three
transport-level classes caught by `DelugeRPCClient.call`;
`invalidHeader` is `InvalidHeaderException`; `decompressError` and
`deserializeError` stand for `zlib.error` and a `rencode` failure;
`failedToReconnect` is `FailedToReconnectException`; `remote` is the
dynamically created `RemoteException` subclass, carried here as a kind
name plus message; `typeError` and `indexError` are the Python built-in
errors reachable from malformed message bodies. -/
inductive Exc where
  | socketError
  | connectionLost
  | callTimeout
  | invalidHeader
  | decompressError
  | deserializeError
  | failedToReconnect
  | typeError
  | indexError
  | remote (kind : String) (msg : String)
deriving DecidableEq

/-- The exception classes caught by the retry loop in
`DelugeRPCClient.call` (client.py line 236):
`(socket.error, ConnectionLostException, CallTimeoutException)`. -/
def Exc.isTransport : Exc → Bool
  | .socketError => true
  | .connectionLost => true
  | .callTimeout => true
  | _ => false

/-- The protocol-level failures named by the specification: header
version mismatch, and decompression or deserialization failure while
decoding a response. -/
def Exc.isProtocol : Exc → Bool
  | .invalidHeader => true
  | .decompressError => true
  | .deserializeError => true
  | _ => false

/-- Outcome of one blocking `self._socket.recv(READ_SIZE)` call inside
`_receive_response` (client.py lines 161-164): a chunk of data, a
zero-byte read, or an `ssl.SSLError`. -/
inductive RecvEvent where
  | chunk (d : List Nat)
  | closed
  | sslError
deriving DecidableEq

/-- Result of the framing loop of `_receive_response`: the raw (still
compressed) payload bytes handed to `zlib.decompress`, a raised
exception, or `starved` when the supplied event list ends while the
loop would still block on another `recv`. -/
inductive FrameResult where
  | payload (d : List Nat)
  | err (e : Exc)
  | starved
deriving DecidableEq

/-- The value `struct.unpack` reads with format `!I` from `header[1:]`
(client.py line 188): the four
header bytes after the version byte, big endian. -/
def beU32 (bs : List Nat) : Nat :=
  match bs with
  | [b1, b2, b3, b4] => ((b1 * 256 + b2) * 256 + b3) * 256 + b4
  | _ => 0

/-- The accumulation loop of `_receive_response` (client.py lines
157-192).  State: `data` is the accumulated unconsumed bytes (initially
the `partial_data` argument), `expected` is `expected_bytes` (`none`
while the 5-byte header is incomplete).  Each `RecvEvent` is one
`recv`: an `ssl.SSLError` raises `CallTimeoutException`, a zero-byte
read raises `ConnectionLostException`; otherwise the chunk is appended,
the header is split off once at least `MESSAGE_HEADER_SIZE` bytes have
accumulated, the first header byte is compared with the session
protocol version (mismatch raises `InvalidHeaderException`), the
payload length is read from the remaining four header bytes, and the
loop ends once that many payload bytes have accumulated. -/
def receive_loop (protocolVersion : Nat) :
    List Nat → Option Nat → List RecvEvent → FrameResult
  | _, _, [] => .starved
  | data, expected, ev :: rest =>
    match ev with
    | .sslError => .err .callTimeout
    | .closed => .err .connectionLost
    | .chunk d =>
      let data1 := data ++ d
      match expected with
      | none =>
        if data1.length < MESSAGE_HEADER_SIZE then
          receive_loop protocolVersion data1 none rest
        else
          let header := data1.take MESSAGE_HEADER_SIZE
          let body := data1.drop MESSAGE_HEADER_SIZE
          if header.headD 0 ≠ protocolVersion then
            .err .invalidHeader
          else
            let expectedBytes := beU32 (header.drop 1)
            if expectedBytes ≤ body.length then
              .payload body
            else
              receive_loop protocolVersion body (some expectedBytes) rest
      | some expectedBytes =>
        if expectedBytes ≤ data1.length then
          .payload data1
        else
          receive_loop protocolVersion data1 (some expectedBytes) rest

/-- Joining `exception_msg` with the comma-space separator succeeds
only when every element of the
received argument tuple is a string; this extracts those strings. -/
def allStrs : List RValue → Option (List String)
  | [] => some []
  | .str s :: rest => (allStrs rest).map (fun l => s :: l)
  | _ => none

/-- The `RPC_ERROR` branch of `_receive_response` (client.py lines
198-214): unpack `exception_type, exception_msg, _, traceback = data`
(a wrong shape or wrong field types raise a Python error), join the
message arguments with the comma-space separator, and raise the dynamically named
`RemoteException` subclass whose message is the joined arguments, a
newline, and the traceback text. -/
def handle_rpc_error : List RValue → Except Exc (Option RValue)
  | [.str excType, .tuple excArgs, _third, .str tbText] =>
    match allStrs excArgs with
    | some msgs =>
      .error (.remote excType (String.intercalate ", " msgs ++ "\n" ++ tbText))
    | none => .error .typeError
  | _ => .error .typeError

/-- The Python comparison `msg_type == k` for an integer constant `k`:
true exactly when the value is the integer `k`. -/
def RValue.isInt (v : RValue) (k : Int) : Bool :=
  match v with
  | .int n => n = k
  | _ => false

/-- The message interpretation stage of `_receive_response` (client.py
lines 194-217), starting from the deserialized value list: pop the
message type and the request id, raise a remote error on `RPC_ERROR`,
return `data[0]` on `RPC_RESPONSE`, and fall off the end of the
function (returning `None`) for every other message type.  The popped
request id is never inspected. -/
def receive_decode (msg : List RValue) : Except Exc (Option RValue) :=
  match msg with
  | mtype :: _requestId :: rest =>
    if mtype.isInt RPC_ERROR then
      handle_rpc_error rest
    else if mtype.isInt RPC_RESPONSE then
      match rest with
      | ret :: _ => .ok (some ret)
      | [] => .error .indexError
    else
      .ok none
  | _ => .error .indexError

/-- `self.request_id = 1` in `__init__` (client.py line 68). -/
def INITIAL_REQUEST_ID : Nat := 1

/-- `_send_call` (client.py lines 141-155) increments `self.request_id`
before use: from state `requestId` it returns the new state and the id
placed in the outgoing request, both `requestId + 1`. -/
def send_call (requestId : Nat) : Nat × Nat :=
  (requestId + 1, requestId + 1)

/-- The ids used by `n` consecutive `_send_call` invocations starting
from request-id state `requestId`. -/
def send_ids (requestId : Nat) : Nat → List Nat
  | 0 => []
  | n + 1 => (send_call requestId).2 :: send_ids (send_call requestId).1 n

/-- One request/response exchange: `_send_call` allocates a fresh
request id (the id in flight), then the reply frame is decoded by
`_receive_response`.  Returns the post-exchange request-id state
(which equals the in-flight id) and the decoded outcome. -/
def exchange (requestId : Nat) (reply : List RValue) :
    Nat × Except Exc (Option RValue) :=
  ((send_call requestId).1, receive_decode reply)

/-- Trace of one `DelugeRPCClient.call` invocation: the outcome (the
returned value or the raised exception), how many times `reconnect`
was entered, and how many times the request was sent. -/
structure CallTrace where
  result : Except Exc (Option RValue)
  reconnects : Nat
  sends : Nat

/-- The retry loop of `DelugeRPCClient.call` (client.py lines 227-248).
`attempts i` is the outcome of the `i`-th send/receive cycle
(`_send_call` followed by `_receive_response`): a returned value or a
raised exception.  `reconnectOutcome` is the outcome of `reconnect()`
(`none` on success).  The loop body runs at most `fuel = 2` times
(`for _ in range(2)`); `tried` is `tried_reconnect`, `i` counts sends,
`r` counts reconnect attempts.  Only the three transport-level
exception classes are caught; with automatic reconnect off they are
re-raised at once, with it on the first one triggers one reconnect
(a transport-level failure during the reconnect raises
`FailedToReconnectException`, any other exception from it propagates)
and a second transport-level failure raises
`FailedToReconnectException`.  Falling off the loop returns `None`. -/
def call_loop (autoReconnect : Bool)
    (attempts : Nat → Except Exc (Option RValue))
    (reconnectOutcome : Option Exc) :
    Nat → Bool → Nat → Nat → CallTrace
  | 0, _, i, r => ⟨.ok none, r, i⟩
  | fuel + 1, tried, i, r =>
    match attempts i with
    | .ok v => ⟨.ok v, r, i + 1⟩
    | .error e =>
      if e.isTransport then
        if autoReconnect then
          if tried then
            ⟨.error .failedToReconnect, r, i + 1⟩
          else
            match reconnectOutcome with
            | none =>
              call_loop autoReconnect attempts reconnectOutcome fuel true (i + 1) (r + 1)
            | some e2 =>
              if e2.isTransport then
                ⟨.error .failedToReconnect, r + 1, i + 1⟩
              else
                ⟨.error e2, r + 1, i + 1⟩
        else
          ⟨.error e, r, i + 1⟩
      else
        ⟨.error e, r, i + 1⟩

/-- `DelugeRPCClient.call`: the retry loop entered with
`tried_reconnect = False` and two loop iterations available. -/
def call (autoReconnect : Bool)
    (attempts : Nat → Except Exc (Option RValue))
    (reconnectOutcome : Option Exc) : CallTrace :=
  call_loop autoReconnect attempts reconnectOutcome 2 false 0 0

/-- Result of `_detect_deluge_version` (client.py lines 120-139):
either the negotiated protocol version together with the framing
result of the probe response, or one of the two fatal failures. -/
inductive DetectResult where
  | ok (protocolVersion : Nat) (probeResponse : FrameResult)
  | unsupportedTimeout
  | unsupportedVersion (firstByte : Nat)

/-- `_detect_deluge_version` (client.py lines 120-139): after sending
the `daemon.info` probe, `recv(1)` reads one byte (`firstRead = none`
models the `TimeoutError`, raised as the unsupported-daemon error).  If
the byte equals 1 the protocol version is set to 1 and
`_receive_response(1, partial_data=result)` parses the rest, the
consumed byte counting toward the header; any other byte raises the
unsupported-protocol-version error. -/
def detect_deluge_version (firstRead : Option Nat) (events : List RecvEvent) :
    DetectResult :=
  match firstRead with
  | none => .unsupportedTimeout
  | some b =>
    if b = 1 then .ok 1 (receive_loop 1 [b] none events)
    else .unsupportedVersion b

/-- The line scan of `LocalDelugeRPCClient._get_local_auth` (client.py
lines 318-331): skip a line that is empty or starts with `#`, split on
`:`, skip a line with fewer than two fields, and stop at the first line
whose first field is `localclient`, returning its first two fields. -/
def get_local_auth_loop : List String → String × String
  | [] => ("", "")
  | line :: rest =>
    if line = "" ∨ line.startsWith "#" then
      get_local_auth_loop rest
    else
      match line.splitOn ":" with
      | u :: p :: _ =>
        if u = "localclient" then (u, p) else get_local_auth_loop rest
      | _ => get_local_auth_loop rest

/-- `LocalDelugeRPCClient._get_local_auth` (client.py lines 306-333)
over an abstract filesystem: `none` models a missing auth file (the
`os.path.exists` test fails and the defaults are returned), `some
lines` models the lines of the file. -/
def get_local_auth (authFile : Option (List String)) : String × String :=
  match authFile with
  | none => ("", "")
  | some lines => get_local_auth_loop lines

/-- One auth line as the specification describes it: not blank, not a
`#` comment, at least two `:`-separated fields, first field equal to
the well-known local identity; yields the (username, password) pair. -/
def local_auth_spec_entry (line : String) : Option (String × String) :=
  if line = "" ∨ line.startsWith "#" then none
  else
    match line.splitOn ":" with
    | u :: p :: _ => if u = "localclient" then some (u, p) else none
    | _ => none

/-! Helper lemmas about the framing loop. -/

theorem receive_loop_payload_phase (pv expected : Nat) (payload : List Nat)
    (chunks : List (List Nat)) :
    ∀ data : List Nat,
      data ++ chunks.flatten = payload →
      data.length < expected →
      expected = payload.length →
      receive_loop pv data (some expected) (chunks.map RecvEvent.chunk)
        = .payload payload := by
  induction chunks with
  | nil =>
    intro data hjoin hlt hexp
    simp only [List.flatten_nil, List.append_nil] at hjoin
    subst hjoin
    exfalso
    omega
  | cons c rest ih =>
    intro data hjoin hlt hexp
    simp only [List.flatten_cons] at hjoin
    rw [← List.append_assoc] at hjoin
    simp only [List.map_cons, receive_loop]
    by_cases h : expected ≤ (data ++ c).length
    · have hlen := congrArg List.length hjoin
      simp only [List.length_append] at hlen
      have h2 : expected ≤ data.length + c.length := by
        simpa [List.length_append] using h
      have hnil : rest.flatten = [] := by
        have : rest.flatten.length = 0 := by omega
        exact List.length_eq_zero.mp this
      rw [hnil, List.append_nil] at hjoin
      rw [if_pos h, hjoin]
    · simp only [h, if_false]
      exact ih (data ++ c) hjoin (by omega) hexp

theorem receive_loop_header_phase (pv : Nat) (lenB payload : List Nat)
    (chunks : List (List Nat)) (hlen4 : lenB.length = 4)
    (hbe : beU32 lenB = payload.length) :
    ∀ data : List Nat,
      data ++ chunks.flatten = pv :: (lenB ++ payload) →
      data.length < 5 →
      receive_loop pv data none (chunks.map RecvEvent.chunk)
        = .payload payload := by
  induction chunks with
  | nil =>
    intro data hjoin hlt
    exfalso
    have hlen := congrArg List.length hjoin
    simp only [List.flatten_nil, List.append_nil, List.length_cons,
      List.length_append, hlen4] at hlen
    omega
  | cons c rest ih =>
    intro data hjoin hlt
    simp only [List.flatten_cons] at hjoin
    rw [← List.append_assoc] at hjoin
    simp only [List.map_cons, receive_loop, MESSAGE_HEADER_SIZE]
    by_cases h5 : (data ++ c).length < 5
    · rw [if_pos h5]
      exact ih (data ++ c) hjoin h5
    · have h5' : 5 ≤ (data ++ c).length := Nat.not_lt.mp h5
      have htake : (data ++ c).take 5 = pv :: lenB := by
        have ht1 : ((data ++ c) ++ rest.flatten).take 5 = (data ++ c).take 5 :=
          List.take_append_of_le_length h5'
        rw [hjoin] at ht1
        rw [← ht1]
        have ht2 : (lenB ++ payload).take 4 = lenB := by
          rw [List.take_append_of_le_length (by omega), ← hlen4, List.take_length]
        simp [List.take_succ_cons, ht2]
      have hdrop : (data ++ c).drop 5 ++ rest.flatten = payload := by
        have hd1 : ((data ++ c) ++ rest.flatten).drop 5
            = (data ++ c).drop 5 ++ rest.flatten :=
          List.drop_append_of_le_length h5'
        rw [hjoin] at hd1
        rw [← hd1]
        simp only [List.drop_succ_cons]
        exact List.drop_left' hlen4
      rw [if_neg (by omega)]
      rw [htake]
      simp only [List.headD_cons, List.drop_succ_cons, List.drop_zero]
      rw [if_neg (by simp)]
      rw [hbe]
      by_cases hdone : payload.length ≤ ((data ++ c).drop 5).length
      · have hlen := congrArg List.length hdrop
        simp only [List.length_append] at hlen
        have hnil : rest.flatten = [] := by
          have : rest.flatten.length = 0 := by omega
          exact List.length_eq_zero.mp this
        rw [hnil, List.append_nil] at hdrop
        rw [if_pos hdone, hdrop]
      · rw [if_neg hdone]
        exact receive_loop_payload_phase pv payload.length payload rest
          ((data ++ c).drop 5) hdrop (by omega) rfl

theorem receive_loop_bad_header (pv : Nat) (chunks : List (List Nat)) :
    ∀ data : List Nat,
      data.length < 5 →
      5 ≤ (data ++ chunks.flatten).length →
      (data ++ chunks.flatten).headD 0 ≠ pv →
      receive_loop pv data none (chunks.map RecvEvent.chunk)
        = .err .invalidHeader := by
  induction chunks with
  | nil =>
    intro data h1 h2 _h3
    exfalso
    simp only [List.flatten_nil, List.append_nil] at h2
    omega
  | cons c rest ih =>
    intro data h1 h2 h3
    simp only [List.flatten_cons] at h2 h3
    rw [← List.append_assoc] at h2 h3
    simp only [List.map_cons, receive_loop, MESSAGE_HEADER_SIZE]
    by_cases h5 : (data ++ c).length < 5
    · rw [if_pos h5]
      exact ih (data ++ c) h5 h2 h3
    · rw [if_neg h5]
      obtain ⟨a, t, hat⟩ : ∃ a t, data ++ c = a :: t := by
        cases hd : data ++ c with
        | nil =>
          exfalso
          rw [hd] at h5
          simp at h5
        | cons a t => exact ⟨a, t, rfl⟩
      rw [hat] at h3 ⊢
      simp only [List.cons_append, List.headD_cons] at h3
      simp only [List.take_succ_cons, List.headD_cons]
      rw [if_pos h3]

/-! Claim theorems. -/

/-- C4: for every inbound frame whose first header byte differs from
the negotiated protocol version, the framing loop of
`_receive_response` raises `InvalidHeaderException` and returns no
payload bytes; when the header byte matches, decoding accumulates
partial receives (any splitting of the frame into receive chunks)
until the 5 header bytes and then the advertised number of payload
bytes have been read, returning exactly the payload. -/
theorem c4_frame_decoding :
    (∀ (pv : Nat) (data : List Nat) (chunks : List (List Nat)),
      data.length < 5 →
      5 ≤ (data ++ chunks.flatten).length →
      (data ++ chunks.flatten).headD 0 ≠ pv →
      receive_loop pv data none (chunks.map RecvEvent.chunk)
        = .err .invalidHeader)
    ∧ (∀ (pv : Nat) (lenB payload : List Nat) (chunks : List (List Nat)),
      lenB.length = 4 →
      beU32 lenB = payload.length →
      chunks.flatten = pv :: (lenB ++ payload) →
      receive_loop pv [] none (chunks.map RecvEvent.chunk)
        = .payload payload) := by
  constructor
  · intro pv data chunks h1 h2 h3
    exact receive_loop_bad_header pv chunks data h1 h2 h3
  · intro pv lenB payload chunks h1 h2 h3
    exact receive_loop_header_phase pv lenB payload chunks h1 h2 []
      (by simpa using h3) (by simp)

/-- Witness for C4: a frame with wrong version byte 3 split across
three receives is rejected with `InvalidHeaderException`; the same
frame with the correct version byte 1, split the same way, yields the
two payload bytes. -/
theorem c4_frame_decoding_witness :
    receive_loop 1 [] none
        [RecvEvent.chunk [3, 0], RecvEvent.chunk [0, 0, 2, 7], RecvEvent.chunk [8]]
      = .err .invalidHeader
    ∧ receive_loop 1 [] none
        [RecvEvent.chunk [1, 0], RecvEvent.chunk [0, 0, 2, 7], RecvEvent.chunk [8]]
      = .payload [7, 8] := by
  constructor
  · exact c4_frame_decoding.1 1 [] [[3, 0], [0, 0, 2, 7], [8]]
      (by decide) (by decide) (by decide)
  · exact c4_frame_decoding.2 1 [0, 0, 0, 2] [7, 8] [[1, 0], [0, 0, 2, 7], [8]]
      (by decide) (by decide) (by decide)

/-- C5: during version negotiation exactly one byte is read first; a
timeout on that read gives the fatal unsupported-daemon failure, a
first byte other than 1 gives the fatal unsupported-version failure,
and a first byte equal to 1 sets the negotiated version to 1 and
parses the remaining bytes as the framed probe response, the consumed
byte counting as the first of the 5 header bytes. -/
theorem c5_version_negotiation (b : Nat) (lenB payload : List Nat)
    (chunks : List (List Nat)) (events : List RecvEvent)
    (hb : b ≠ 1) (hlen4 : lenB.length = 4)
    (hbe : beU32 lenB = payload.length)
    (hjoin : chunks.flatten = lenB ++ payload) :
    detect_deluge_version none events = .unsupportedTimeout
    ∧ detect_deluge_version (some b) events = .unsupportedVersion b
    ∧ detect_deluge_version (some 1) (chunks.map RecvEvent.chunk)
        = .ok 1 (.payload payload) := by
  refine ⟨rfl, ?_, ?_⟩
  · simp [detect_deluge_version, hb]
  · simp only [detect_deluge_version, if_pos rfl]
    rw [receive_loop_header_phase 1 lenB payload chunks hlen4 hbe [1]
      (by simp [hjoin]) (by simp)]
    simp

/-- Witness for C5: first byte 2 is rejected, a timeout is rejected,
and first byte 1 followed by the remaining header bytes advertising one
payload byte parses to that payload byte. -/
theorem c5_version_negotiation_witness :
    detect_deluge_version none [] = .unsupportedTimeout
    ∧ detect_deluge_version (some 2) [] = .unsupportedVersion 2
    ∧ detect_deluge_version (some 1)
        [RecvEvent.chunk [0, 0], RecvEvent.chunk [0, 1, 5]]
      = .ok 1 (.payload [5]) := by
  have h := c5_version_negotiation 2 [0, 0, 0, 1] [5] [[0, 0], [0, 1, 5]] []
    (by decide) (by decide) (by decide) (by decide)
  exact ⟨h.1, h.2.1, h.2.2⟩

/-- C1: with automatic reconnect enabled, a transport-level failure of
the first send/receive cycle triggers exactly one reconnect and exactly
one retry of the call; the retried value is returned on success, and a
transport-level failure of the reconnect itself, or of the retried
cycle, raises `FailedToReconnectException` to the caller. -/
theorem c1_automatic_reconnect
    (attempts : Nat → Except Exc (Option RValue)) (e0 : Exc)
    (h0 : attempts 0 = .error e0) (ht : e0.isTransport = true) :
    (∀ v : Option RValue, attempts 1 = .ok v →
      call true attempts none = ⟨.ok v, 1, 2⟩)
    ∧ (∀ e1 : Exc, attempts 1 = .error e1 → e1.isTransport = true →
      call true attempts none = ⟨.error .failedToReconnect, 1, 2⟩)
    ∧ (∀ e2 : Exc, e2.isTransport = true →
      call true attempts (some e2) = ⟨.error .failedToReconnect, 1, 1⟩) := by
  refine ⟨?_, ?_, ?_⟩
  · intro v h1
    simp [call, call_loop, h0, h1, ht]
  · intro e1 h1 ht1
    simp [call, call_loop, h0, h1, ht, ht1]
  · intro e2 ht2
    simp [call, call_loop, h0, ht, ht2]

/-- Witness for C1: with the connection lost on the first cycle, a
successful retry returns the value after one reconnect; a second
connection loss after a successful reconnect, or a timeout during the
reconnect itself, each raise `FailedToReconnectException`. -/
theorem c1_automatic_reconnect_witness :
    call true
        (fun i => if i = 0 then .error .connectionLost else .ok (some (.str "ok")))
        none
      = ⟨.ok (some (.str "ok")), 1, 2⟩
    ∧ call true (fun _ => .error .connectionLost) none
      = ⟨.error .failedToReconnect, 1, 2⟩
    ∧ call true (fun _ => .error .connectionLost) (some .callTimeout)
      = ⟨.error .failedToReconnect, 1, 1⟩ := by
  refine ⟨?_, ?_, ?_⟩
  · exact (c1_automatic_reconnect
      (fun i => if i = 0 then .error .connectionLost else .ok (some (.str "ok")))
      .connectionLost rfl rfl).1 (some (.str "ok")) rfl
  · exact (c1_automatic_reconnect (fun _ => .error .connectionLost)
      .connectionLost rfl rfl).2.1 .connectionLost rfl rfl
  · exact (c1_automatic_reconnect (fun _ => .error .connectionLost)
      .connectionLost rfl rfl).2.2 .callTimeout rfl

/-- C2: a protocol-level failure of the send/receive cycle (header
version mismatch, or a decompression or deserialization failure while
decoding the response) is not caught by the retry loop: whatever the
automatic-reconnect setting, it propagates to the caller with no
reconnect attempt and no re-send of the request. -/
theorem c2_protocol_errors_propagate (auto : Bool)
    (attempts : Nat → Except Exc (Option RValue)) (rec : Option Exc)
    (e0 : Exc) (h0 : attempts 0 = .error e0) (hp : e0.isProtocol = true) :
    call auto attempts rec = ⟨.error e0, 0, 1⟩ := by
  have ht : e0.isTransport = false := by
    cases e0 <;> simp_all [Exc.isProtocol, Exc.isTransport]
  simp [call, call_loop, h0, ht]

/-- Witness for C2: an `InvalidHeaderException` outcome propagates
unchanged with reconnect enabled, as does a decompression failure with
reconnect disabled. -/
theorem c2_protocol_errors_propagate_witness :
    call true (fun _ => .error .invalidHeader) none
      = ⟨.error .invalidHeader, 0, 1⟩
    ∧ call false (fun _ => .error .decompressError) none
      = ⟨.error .decompressError, 0, 1⟩ :=
  ⟨c2_protocol_errors_propagate true (fun _ => .error .invalidHeader) none
      .invalidHeader rfl rfl,
    c2_protocol_errors_propagate false (fun _ => .error .decompressError) none
      .decompressError rfl rfl⟩

/-- C7: with automatic reconnect disabled, a transport-level failure of
the first send/receive cycle is raised to the caller unchanged, with
zero reconnect attempts and no second send. -/
theorem c7_reconnect_disabled (attempts : Nat → Except Exc (Option RValue))
    (rec : Option Exc) (e0 : Exc)
    (h0 : attempts 0 = .error e0) (ht : e0.isTransport = true) :
    call false attempts rec = ⟨.error e0, 0, 1⟩ := by
  simp [call, call_loop, h0, ht]

/-- Witness for C7: a lost connection propagates as
`ConnectionLostException` with no reconnect and a single send. -/
theorem c7_reconnect_disabled_witness :
    call false (fun _ => .error .connectionLost) none
      = ⟨.error .connectionLost, 0, 1⟩ :=
  c7_reconnect_disabled (fun _ => .error .connectionLost) none
    .connectionLost rfl rfl

theorem send_ids_getD (requestId n k : Nat) (hk : k < n) :
    (send_ids requestId n).getD k 0 = requestId + k + 1 := by
  induction n generalizing requestId k with
  | zero => omega
  | succ n ih =>
    cases k with
    | zero => simp [send_ids, send_call]
    | succ k =>
      simp only [send_ids, send_call, List.getD_cons_succ]
      rw [ih (requestId + 1) k (by omega)]
      omega

/-- C6: within a session the first `_send_call` (the handshake probe in
`_detect_deluge_version`) uses id `INITIAL_REQUEST_ID + 1 = 2`, each
further send uses an id exactly one larger than the previous send, so
every later send (in particular the retry issued by the reconnect
policy) uses an id strictly above the probe id and never reuses an
earlier id. -/
theorem c6_request_ids (n i j : Nat) (hi : i < n) (hj : j < n) (hij : i < j) :
    (send_ids INITIAL_REQUEST_ID n).getD 0 0 = INITIAL_REQUEST_ID + 1
    ∧ (send_ids INITIAL_REQUEST_ID n).getD j 0
        = (send_ids INITIAL_REQUEST_ID n).getD i 0 + (j - i)
    ∧ (send_ids INITIAL_REQUEST_ID n).getD i 0
        < (send_ids INITIAL_REQUEST_ID n).getD j 0 := by
  have h0 := send_ids_getD INITIAL_REQUEST_ID n 0 (by omega)
  have hi' := send_ids_getD INITIAL_REQUEST_ID n i hi
  have hj' := send_ids_getD INITIAL_REQUEST_ID n j hj
  exact ⟨h0, by omega, by omega⟩

/-- Witness for C6: over four sends starting from the initial state,
the probe id is 2, the id of send 3 exceeds the id of send 0 by 3, and
the two ids differ. -/
theorem c6_request_ids_witness :
    (send_ids INITIAL_REQUEST_ID 4).getD 0 0 = INITIAL_REQUEST_ID + 1
    ∧ (send_ids INITIAL_REQUEST_ID 4).getD 3 0
        = (send_ids INITIAL_REQUEST_ID 4).getD 0 0 + 3
    ∧ (send_ids INITIAL_REQUEST_ID 4).getD 0 0
        < (send_ids INITIAL_REQUEST_ID 4).getD 3 0 :=
  c6_request_ids 4 0 3 (by decide) (by decide) (by decide)

theorem allStrs_map_str (l : List String) :
    allStrs (l.map RValue.str) = some l := by
  induction l with
  | nil => rfl
  | cons a l ih => simp [allStrs, ih]

/-- C8: an Error reply whose fields are the exception type name, the
tuple of message arguments, an ignored field and the traceback text
makes the call raise a remote error whose kind is the reported type
name and whose message is the arguments joined by a separator followed
by a newline and the traceback; the retry loop never catches it.  In
particular the AuthenticationRequired reply with argument tuple
containing only the text bad creds and traceback trace yields kind
AuthenticationRequired and message bad creds, newline, trace. -/
theorem c8_remote_error (auto : Bool) (rid : Int) (excType : String)
    (args : List String) (tbText : String) (third : RValue)
    (attempts : Nat → Except Exc (Option RValue)) (rec : Option Exc)
    (h0 : attempts 0
      = .error (.remote excType (String.intercalate ", " args ++ "\n" ++ tbText))) :
    receive_decode
        (.int RPC_ERROR :: .int rid
          :: [.str excType, .tuple (args.map RValue.str), third, .str tbText])
      = .error (.remote excType (String.intercalate ", " args ++ "\n" ++ tbText))
    ∧ call auto attempts rec
      = ⟨.error (.remote excType (String.intercalate ", " args ++ "\n" ++ tbText)), 0, 1⟩
    ∧ receive_decode
        (.int RPC_ERROR :: .int 7
          :: [.str "AuthenticationRequired", .tuple [.str "bad creds"], .noneV,
              .str "trace"])
      = .error (.remote "AuthenticationRequired" ("bad creds" ++ "\n" ++ "trace")) := by
  refine ⟨?_, ?_, ?_⟩
  · simp [receive_decode, RValue.isInt, RPC_ERROR, handle_rpc_error, allStrs_map_str]
  · simp [call, call_loop, h0, Exc.isTransport]
  · rfl

/-- Witness for C8: the AuthenticationRequired scenario at concrete
values, both at the decode stage and through the call loop. -/
theorem c8_remote_error_witness :
    receive_decode
        [.int RPC_ERROR, .int 7, .str "AuthenticationRequired",
         .tuple [.str "bad creds"], .noneV, .str "trace"]
      = .error (.remote "AuthenticationRequired" ("bad creds" ++ "\n" ++ "trace"))
    ∧ call true
        (fun _ => .error (.remote "AuthenticationRequired"
          (String.intercalate ", " ["bad creds"] ++ "\n" ++ "trace")))
        none
      = ⟨.error (.remote "AuthenticationRequired"
          (String.intercalate ", " ["bad creds"] ++ "\n" ++ "trace")), 0, 1⟩ := by
  have h := c8_remote_error true 7 "AuthenticationRequired" ["bad creds"] "trace"
    .noneV
    (fun _ => .error (.remote "AuthenticationRequired"
      (String.intercalate ", " ["bad creds"] ++ "\n" ++ "trace")))
    none rfl
  exact ⟨h.2.2, h.2.1⟩

/-- C10: an inbound message whose type tag is neither `RPC_RESPONSE`
nor `RPC_ERROR` (such as an `RPC_EVENT` message) makes
`_receive_response` fall through both branches and return `None`
without raising. -/
theorem c10_event_returns_none (mtype rid : RValue) (rest : List RValue)
    (h1 : mtype.isInt RPC_RESPONSE = false)
    (h2 : mtype.isInt RPC_ERROR = false) :
    receive_decode (mtype :: rid :: rest) = .ok none := by
  simp [receive_decode, h1, h2]

/-- Witness for C10: a concrete `RPC_EVENT` message is consumed and
yields `None`. -/
theorem c10_event_returns_none_witness :
    receive_decode [.int RPC_EVENT, .int 5, .str "TorrentAddedEvent"]
      = .ok none :=
  c10_event_returns_none (.int RPC_EVENT) (.int 5) [.str "TorrentAddedEvent"]
    (by decide) (by decide)

/-- C3 counterexample: the claim that a decoded response is accepted
only when the request id it carries equals the id of the request in
flight is false.  With request-id state 1 the in-flight id is 2, yet a
RESPONSE message carrying id 999 is accepted as the result. -/
theorem c3_counterexample :
    ¬ (∀ (requestId : Nat) (reply : List RValue) (v : RValue),
        (exchange requestId reply).2 = .ok (some v) →
        reply.getD 1 .noneV = .int ((exchange requestId reply).1 : Int)) := by
  intro h
  have h1 := h 1 [.int 1, .int 999, .str "2.1.1"] (.str "2.1.1") rfl
  simp [exchange, send_call] at h1

/-- C3 amended: the inbound request id is popped but never compared to
the in-flight id; the decode result of `_receive_response` is the same
whatever value sits in the request-id position. -/
theorem c3_amended_id_not_validated (mtype ridA ridB : RValue)
    (rest : List RValue) :
    receive_decode (mtype :: ridA :: rest)
      = receive_decode (mtype :: ridB :: rest) := rfl

theorem get_local_auth_loop_eq (lines : List String) :
    get_local_auth_loop lines
      = (lines.findSome? local_auth_spec_entry).getD ("", "") := by
  induction lines with
  | nil => rfl
  | cons line rest ih =>
    simp only [get_local_auth_loop, local_auth_spec_entry, List.findSome?_cons]
    by_cases hb : line = "" ∨ line.startsWith "#"
    · simp [hb, ih]
    · simp only [hb, if_false]
      cases hsplit : line.splitOn ":" with
      | nil => simp [ih]
      | cons u tl =>
        cases tl with
        | nil => simp [ih]
        | cons p tl2 =>
          by_cases hu : u = "localclient"
          · simp [hu]
          · simp [hu, ih]

/-- C9: local credential discovery returns the defaults when the auth
file is absent, and otherwise scans the lines in order, skipping blank
lines, comment lines and lines with fewer than two colon-separated
fields, returning the (username, password) fields of the first line
whose username is localclient, or the defaults when no line matches. -/
theorem c9_local_auth (lines : List String) :
    get_local_auth none = ("", "")
    ∧ get_local_auth (some lines)
        = (lines.findSome? local_auth_spec_entry).getD ("", "") :=
  ⟨rfl, get_local_auth_loop_eq lines⟩
